import Mathlib

/-!
Verification of the go-genchain consensus engine
(`consensus/ethash/consensus.go` and the matrix utilities) against its
natural-language specification.

The Go code is shallowly embedded: `uint64` values are modelled as `Nat`
with an explicit `% 2^64` wherever the source can wrap, `math/big`
integers (which are non-negative everywhere they occur here) as plain
`Nat`, addresses as the hex strings the source holds, and the state
mutations of the reward accumulator as an explicit trace of
`AddBalance (address, amount)` events.  The package constants `params.N`
and `params.P` are not part of the sources; all difficulty functions
take them as explicit leading arguments `pN pP`.
-/

namespace Genchain

/-- Width of a Go `uint64`: values live below `W`. -/
def W : ℕ := 2 ^ 64

/-- Go `uint64` subtraction `a - b` (wrap-around), for `a < W`. -/
def usub (a b : ℕ) : ℕ := (a + (W - b % W)) % W

/-! ## Reward constants (`consensus.go`, lines 36-44)

`big.NewInt(4.5e+17)` etc.: the untyped Go constants are exact integers,
so the values below are the exact `int64` contents. -/

/-- `GenBlockReward = 4.5e17`. -/
def GenBlockReward : ℕ := 450000000000000000

/-- `GenBlockUncleReward = 5e16`. -/
def GenBlockUncleReward : ℕ := 50000000000000000

/-- `GenBlockEcoReward = 1e15`. -/
def GenBlockEcoReward : ℕ := 1000000000000000

/-- `TotalCoin = 1.33e7`. -/
def TotalCoin : ℕ := 13300000

/-- `maxUncles = 5`. -/
def maxUncles : ℕ := 5

/-- The supply cap `TotalCoin * 1e18` computed at the head of
`computerRewardBase`. -/
def supplyCap : ℕ := TotalCoin * 1000000000000000000

/-- The halving boundary array `blockFiveYearNumber`
(`consensus.go`, line 938). -/
def blockFiveYearNumber : List ℕ :=
  [3153600, 9460800, 22075200, 47304000, 97761600, 198676800, 400507200]

/-- `computerRewardBase(header)` (`consensus.go`, lines 940-994): from the
header's number and cumulative rewards, derive the per-block miner,
uncle, (reserved) and ecosystem rewards, each right-shifted once per
elapsed halving epoch; everything is zero once the cumulative rewards
reach the supply cap.  The four components are returned in the source's
order `(g, t, l, e)`. -/
def computerRewardBase (number rewards : ℕ) : ℕ × ℕ × ℕ × ℕ :=
  if supplyCap ≤ rewards then (0, 0, 0, 0)
  else
    let G := GenBlockReward
    let T := GenBlockUncleReward
    let E := GenBlockEcoReward
    if number ≤ 3153600 then (G, T, 0, E)
    else if 3153600 < number ∧ number ≤ 9460800 then (G >>> 1, T >>> 1, 0, E >>> 1)
    else if 9460800 < number ∧ number ≤ 22075200 then (G >>> 2, T >>> 2, 0, E >>> 2)
    else if 22075200 < number ∧ number ≤ 47304000 then (G >>> 3, T >>> 3, 0, E >>> 3)
    else if 47304000 < number ∧ number ≤ 97761600 then (G >>> 4, T >>> 4, 0, E >>> 4)
    else if 97761600 < number ∧ number ≤ 198676800 then (G >>> 5, T >>> 5, 0, E >>> 5)
    else if 198676800 < number ∧ number ≤ 400507200 then (G >>> 6, T >>> 6, 0, E >>> 6)
    else if 400507200 < number then (G >>> 7, T >>> 7, 0, E >>> 7)
    else (0, 0, 0, 0)

/-- The 100 ecosystem beneficiary addresses `CDAddress`
(`consensus.go`, lines 793-894), kept as the hex strings of the source. -/
def CDAddress : List String :=
  ["0x49ff31917cd16c593d376347f82f7ea67a7ded0d",
   "0x6e2aeaa5d6bbd27656aa8c774005e71d9afc1b23",
   "0x80960290c3e717ba425333219e2b4a64c9184422",
   "0xde0e25c523a107fc71a955288e95fc80e74d114b",
   "0x6c8df9d21c7087125f448016a2f2afcc14bb8c32",
   "0xc21581f15ffe2da6ac5e2efc04cefd5f6ba8c121",
   "0xaf524d5a4aedef7e4ab6580b68f4bbfcd7ed9064",
   "0x8f1eeeade57c518f561169e9e473b6737410106d",
   "0x283d14e63bb224923d92c0a3e20d8d0f8554fdc6",
   "0x1edc6edcb4456badbe2f84ea2868439467303f39",
   "0x35a93c4ba8ae10156950a9a760a922b990223f7e",
   "0xf7922e6085dbb8f9af7b998647bf52a8a67323ea",
   "0xaea94a6c6436c181e976423fca23a2fc58ff0e0e",
   "0xbff99ec8cbf9cd3d27a5a41ab22bf9a1841b658c",
   "0x5e4d01a8b2f4f4385a396f0276090ce9ba70fbec",
   "0xf72afb5b6b87516b96440665b0efef3b466f2c8f",
   "0xc970baa3fe0f050628803560c4f4763a8cb89641",
   "0x72508937ac5d4ea2dfdce7885480eca36a4a23fa",
   "0x9f8136bd79512e809f90ce0c1e451b0d6991aa63",
   "0xa4f36136865312bb5e0d42aed529126f09bb1b02",
   "0x3df38e8fbf2bc869afdec75ceeb25cf470b047e1",
   "0xbc88ffcc81bdb180f74a0590e8586d147ed1ed85",
   "0x771554d5a2cb453f4ed459b830ed4011fb8ce68a",
   "0x127426bed3724449b9efc1da7058f00498c0338d",
   "0x4e1a6355a35466b6cc1b02492795814128a56799",
   "0xd934cdf46a7ac61ce91ebaa92bc20afb68c9b566",
   "0xac2bcd2ed9876051d4c64dd899d38f95e68bdce7",
   "0x6f20fddfdbb96b9516dd9b75fc54c75595581cb3",
   "0x39136041c26225e97dc55bf897881280258722ea",
   "0x9ab1c0ed107c5e3521ca017f3011cbd6cf856202",
   "0x7520afef96fecc57884449b14beca134cbafbed8",
   "0x78b0472be31df30b4c02f83108661f1adc99abd7",
   "0xfd5da58f901548cb0e06a0d74c3d3f9dead8831f",
   "0x17c38c7c4258d9bb75165c828ed0394933b87b28",
   "0x0a50575359efbad65c4c68f71906d663185138bc",
   "0x59f8c5d60d80dcd06add171a09182f9764e58e6a",
   "0x01a24c4e8b82b3c1838d9f4d8b6a8070eeae06b3",
   "0x589ab7907f14d05488c029a362b5f1aeeb9d2d3e",
   "0x201a14780fef99e5793b2da30b4cc5d41c3d51e8",
   "0xde4597c58fa29b7642c317c9a6575fcea8c8f32a",
   "0x73cd1b163c038629cf57987405dfaf964452024a",
   "0x7ebc3ea0ec38c99d76d13cc618760a28a241910f",
   "0xff344df8352209e4a841a95d890695de45dfdfb2",
   "0xbaaa990b7abeb0fc3587dfb446c9f27897daaa07",
   "0x1d07362846ab350377de07efa65126671354716b",
   "0x461a2f4ae6d1651a5279d4d551dc457d6ddce9e1",
   "0xda1a349c67e15c0cdeaeef1cf54041a37652f86e",
   "0x70a7bafcd8b9bfdd1bad2a1099acdc324eebd816",
   "0x4e9ff86bcbfab42d07cc143a8d1775c94010a9bb",
   "0x1cebf431b95076254687a385ccb03aca80c3d543",
   "0x0ebd62ba3e7dea2fef3c583cab94ba32271cfad9",
   "0x86a08724ca02071a93401428bd5c37e827db8c1b",
   "0x0932388681886fe81dce06fa5b50ecda0af6d22b",
   "0x011ed29043ecfe7176ab06879f9475dab260e3f8",
   "0x4e6d3140de836c33828d7cafabbb24b0a0263bc7",
   "0x7cc171a2018dc46a3b22e8905811e31a508cdc5a",
   "0x0911306e8e46bf03e862c0ca39e9eb4d9f175527",
   "0x9bb2fcfe40cfe79788d9daf654f9e5e660376880",
   "0xfa3959dd6925bdf634a19fcf9fc9a74a852b02f1",
   "0x72165c2c6ef16d8b972567d4e4c45f8cfd2f13c3",
   "0x45e1e09ba41644465532b5ed6c439ac6dfe23f59",
   "0x841111d1fe42be7b96e6689e9c94497dc32e3c9d",
   "0x353ae2b4bc037d15e4d08ec2fa18907514e019a2",
   "0x19c4b8d1d4a4d20f0b56163c169f60a851f2956c",
   "0xc02cb1a2ca0f72a5fc0f9798035bf62c381d8e11",
   "0x020758e61bbb5fa332f2c67f0e031d6fcadd6149",
   "0xfffee9d11fb0dd82a57013c74299d604b0bb753e",
   "0x5d1d57a929edf499f0769087827f7b86a67b8183",
   "0xb7d9930658124b685bf2bcbd47aea22541c0c5d0",
   "0x99a64c829f5a4c5afbc0a4ea66af2fde060b4ee6",
   "0x5054afce04f7e1b8dcbb388542b4eba7e140d9c8",
   "0x1b29d583468302df6431571d38273b970c3617dc",
   "0x3dc69c6d5ce802a43ed363628d76beebf50b51f8",
   "0xb9953e7213c9529f01de7bb5088eb6f77cb5605b",
   "0xf60b8609a8324fa2f20175091bf57eb81f9c0deb",
   "0xf07303b8a84968fdec7904c9741c2d54a4b40579",
   "0x44b8b9105521616e90b19c6f10e0323513bc4fea",
   "0xecbc2130bbf9336c22e5130984e21a0fb56334e8",
   "0xed6862dcda5acebab0eda74eacddc6d4f8b40f31",
   "0x80eb5e105f5ffd16c0a3ef0b647e89f1ebeb3e72",
   "0xe7c0a7ea3099b868e4cd416bc41cea95929ccdf1",
   "0x5b39ca60ae3a3f74e4dd47049473482cf3145461",
   "0x242fdc1c4d04e294c7293790a177b2b2cebf1fef",
   "0x487274989a7e160ffc67a693f79d1fd09c524b92",
   "0x870021e24661347469a9b7e13f35c3b4e7e37357",
   "0x4ce7c5fa93f682eb880b8dab8517b1a45e49c662",
   "0x225ac4ee12c29db337a0bf7367d2a78291392648",
   "0x54bf50a802423235915f44979c03d68d7ed3a147",
   "0xef55b38f55ed2add70ce0d441598e9f8dbb27285",
   "0x094b59b08c7495b4eada733df3a3a095047859d4",
   "0x2f639e3629970dca3348628d86d2030726d53ccf",
   "0x1e2beefabfd14cb0bb92f5c3c2515a5616481872",
   "0xb81bcc9e4a53bf504df2567afa86633277e9ec98",
   "0x869ee88333c26633c06747bbcee9bfc1fcc29989",
   "0xaf758dab0efcd9b390013dbca01f61121c5c7e21",
   "0x2104d5b752ae7d26ed60ed12d2cba63cffcb981e",
   "0x45ae3870bdba9d754515ee912f0888b7d6e0a20b",
   "0xeb95f9470258df6a9d50dc644003869cb77dca03",
   "0xf588736008ca9084c687993f543435e0e15a2852",
   "0x9a3e8cb939b9ea72f18079d0a3639ce380b2cd31"]

/-- `accumulateRewardsGen(config, state, header, uncles)`
(`consensus.go`, lines 897-936).  The `state.AddBalance` mutations are
returned as the ordered trace of `(address, amount)` events, and the
second component is the header's updated `Rewards` value.  An uncle is
represented by its coinbase address.  The running sums `rcount` (uncle
loop) and `rcd` (ecosystem loop) are written as the folds the source's
loops perform. -/
def accumulateRewardsGen (number rewards : ℕ) (coinbase : String)
    (uncles : List String) : List (String × ℕ) × ℕ :=
  let base := computerRewardBase number rewards
  let G := base.1
  let T := base.2.1
  let E := base.2.2.2
  let uncleEvents := uncles.map (fun u => (u, T))
  let rcount := uncles.foldl (fun acc _ => acc + T) 0
  let r := rcount / 6
  let reward := G + r
  let ecoEvents := CDAddress.map (fun a => (a, E))
  let rcd := CDAddress.foldl (fun acc _ => acc + E) 0
  (uncleEvents ++ [(coinbase, reward)] ++ ecoEvents,
   reward + rcd + rcount + rewards)

/-! ## Helper lemmas for the reward accumulator -/

/-- Folding `+ c` over a list starting from `a` adds `length * c`. -/
theorem foldl_add_const {α : Type} (c : ℕ) :
    ∀ (l : List α) (a : ℕ), l.foldl (fun acc _ => acc + c) a = a + l.length * c := by
  intro l
  induction l with
  | nil => intro a; simp
  | cons x xs ih =>
      intro a
      simp only [List.foldl_cons, List.length_cons, ih]
      ring

theorem CDAddress_length : CDAddress.length = 100 := by
  simp [CDAddress]

/-- The epoch index of a block number under the halving schedule, as the
spec words it: `0` for numbers `≤ 3153600`, incrementing at each
boundary of `blockFiveYearNumber`, and `7` past the last boundary. -/
def epochIndex (number : ℕ) : ℕ :=
  if number ≤ 3153600 then 0
  else if number ≤ 9460800 then 1
  else if number ≤ 22075200 then 2
  else if number ≤ 47304000 then 3
  else if number ≤ 97761600 then 4
  else if number ≤ 198676800 then 5
  else if number ≤ 400507200 then 6
  else 7

set_option maxHeartbeats 2000000 in
/-- Below the supply cap, `computerRewardBase` is exactly
"base rewards shifted right by the epoch index". -/
theorem computerRewardBase_shift (number rewards : ℕ) (h : rewards < supplyCap) :
    computerRewardBase number rewards =
      (GenBlockReward >>> epochIndex number, GenBlockUncleReward >>> epochIndex number,
       0, GenBlockEcoReward >>> epochIndex number) := by
  unfold computerRewardBase epochIndex
  rw [if_neg (by omega)]
  split_ifs <;> first | rfl | (exfalso; omega)

/-- Above or at the supply cap, `computerRewardBase` returns all zeros. -/
theorem computerRewardBase_capped (number rewards : ℕ) (h : supplyCap ≤ rewards) :
    computerRewardBase number rewards = (0, 0, 0, 0) := by
  unfold computerRewardBase
  rw [if_pos h]

/-- One block can pay out at most
`G + (5*T)/6 + 100*E + 5*T = 841666666666666666` wei
(epoch 0 rewards, five uncles). -/
def maxBlockPayout : ℕ := 841666666666666666

/-- The largest cumulative-reward value the accumulator can ever
produce: the supply cap plus one maximal block payout, minus one. -/
def rewardsBound : ℕ := supplyCap + maxBlockPayout - 1

/-! ## Claims C1, C2, C3, C10 -/

/-- C3: below the supply cap, `computerRewardBase` returns the base
rewards `(G, T, E) = (4.5e17, 5e16, 1e15)` shifted right by the epoch
index determined by the boundary array
`[3153600, 9460800, 22075200, 47304000, 97761600, 198676800, 400507200]`
(`k = 0` for numbers `≤ 3153600`, incrementing per boundary, `k = 7`
past the last); in particular block `3153600` gets the unshifted base
rewards and block `3153601` gets miner reward `G >>> 1 = 2.25e17`. -/
theorem claim_C3_reward_halving_schedule (number rewards : ℕ) (h : rewards < supplyCap) :
    computerRewardBase number rewards =
      (GenBlockReward >>> epochIndex number, GenBlockUncleReward >>> epochIndex number,
       0, GenBlockEcoReward >>> epochIndex number) ∧
    computerRewardBase 3153600 rewards =
      (GenBlockReward, GenBlockUncleReward, 0, GenBlockEcoReward) ∧
    (computerRewardBase 3153601 rewards).1 = 225000000000000000 := by
  refine ⟨computerRewardBase_shift number rewards h, ?_, ?_⟩
  · rw [computerRewardBase_shift 3153600 rewards h]; rfl
  · rw [computerRewardBase_shift 3153601 rewards h]; decide

/-- Witness for C3 at block `3153601` with zero cumulative rewards. -/
theorem claim_C3_witness :
    computerRewardBase 3153601 0 =
      (GenBlockReward >>> epochIndex 3153601, GenBlockUncleReward >>> epochIndex 3153601,
       0, GenBlockEcoReward >>> epochIndex 3153601) ∧
    computerRewardBase 3153600 0 =
      (GenBlockReward, GenBlockUncleReward, 0, GenBlockEcoReward) ∧
    (computerRewardBase 3153601 0).1 = 225000000000000000 :=
  claim_C3_reward_halving_schedule 3153601 0 (by decide)

/-- C2: below the supply cap, `accumulateRewardsGen` adds `T'` to each
uncle's coinbase, then `G' + r` (with `r = (|U| * T') / 6`) to the
miner, then `E'` to each of the 100 ecosystem addresses in list order,
and sets the header's cumulative rewards to
`rewards + (G' + r) + 100 * E' + |U| * T'`, where `(G', T', E')` are
the epoch-adjusted rewards for the block number. -/
theorem claim_C2_accumulate_rewards (number rewards : ℕ) (coinbase : String)
    (uncles : List String) (h : rewards < supplyCap) :
    accumulateRewardsGen number rewards coinbase uncles =
      (uncles.map (fun u => (u, GenBlockUncleReward >>> epochIndex number)) ++
         [(coinbase, GenBlockReward >>> epochIndex number +
            (uncles.length * (GenBlockUncleReward >>> epochIndex number)) / 6)] ++
         CDAddress.map (fun a => (a, GenBlockEcoReward >>> epochIndex number)),
       rewards +
         (GenBlockReward >>> epochIndex number +
            (uncles.length * (GenBlockUncleReward >>> epochIndex number)) / 6) +
         100 * (GenBlockEcoReward >>> epochIndex number) +
         uncles.length * (GenBlockUncleReward >>> epochIndex number)) := by
  unfold accumulateRewardsGen
  rw [computerRewardBase_shift number rewards h]
  simp only [foldl_add_const, CDAddress_length, Nat.zero_add]
  refine Prod.ext rfl ?_
  simp only
  ring

/-- Witness for C2: block 1, zero rewards, one uncle. -/
theorem claim_C2_witness :
    accumulateRewardsGen 1 0 "0xm" ["0xu"] =
      (["0xu"].map (fun u => (u, GenBlockUncleReward >>> epochIndex 1)) ++
         [("0xm", GenBlockReward >>> epochIndex 1 +
            (["0xu"].length * (GenBlockUncleReward >>> epochIndex 1)) / 6)] ++
         CDAddress.map (fun a => (a, GenBlockEcoReward >>> epochIndex 1)),
       0 +
         (GenBlockReward >>> epochIndex 1 +
            (["0xu"].length * (GenBlockUncleReward >>> epochIndex 1)) / 6) +
         100 * (GenBlockEcoReward >>> epochIndex 1) +
         ["0xu"].length * (GenBlockUncleReward >>> epochIndex 1)) :=
  claim_C2_accumulate_rewards 1 0 "0xm" ["0xu"] (by decide)

/-- Counterexample to C1 as stated: starting one wei below the supply
cap, finalizing block 1 with no uncles pushes the cumulative rewards
strictly past `TotalCoin * 1e18`. -/
theorem claim_C1_counterexample :
    supplyCap < (accumulateRewardsGen 1 (supplyCap - 1) "0xm" []).2 := by
  decide

/-- C1 (amended): the cumulative rewards can overshoot the supply cap
by at most one maximal block payout: for any block with at most
`maxUncles` uncles, `accumulateRewardsGen` keeps `h.rewards` at or
below `supplyCap + maxBlockPayout - 1`, and once `h.rewards` has
reached the cap it never changes again. -/
theorem claim_C1_supply_cap (number rewards : ℕ) (coinbase : String)
    (uncles : List String) (hu : uncles.length ≤ maxUncles)
    (hr : rewards ≤ rewardsBound) :
    (accumulateRewardsGen number rewards coinbase uncles).2 ≤ rewardsBound ∧
    (supplyCap ≤ rewards → (accumulateRewardsGen number rewards coinbase uncles).2 = rewards) := by
  by_cases hc : supplyCap ≤ rewards
  · have : (accumulateRewardsGen number rewards coinbase uncles).2 = rewards := by
      unfold accumulateRewardsGen
      rw [computerRewardBase_capped number rewards hc]
      simp [foldl_add_const]
    exact ⟨by omega, fun _ => this⟩
  · push_neg at hc
    unfold accumulateRewardsGen
    rw [computerRewardBase_shift number rewards hc]
    simp only [foldl_add_const, CDAddress_length, Nat.zero_add]
    have hG : GenBlockReward >>> epochIndex number ≤ GenBlockReward := by
      rw [Nat.shiftRight_eq_div_pow]; exact Nat.div_le_self _ _
    have hT : GenBlockUncleReward >>> epochIndex number ≤ GenBlockUncleReward := by
      rw [Nat.shiftRight_eq_div_pow]; exact Nat.div_le_self _ _
    have hE : GenBlockEcoReward >>> epochIndex number ≤ GenBlockEcoReward := by
      rw [Nat.shiftRight_eq_div_pow]; exact Nat.div_le_self _ _
    have hrc : uncles.length * (GenBlockUncleReward >>> epochIndex number) ≤
        5 * GenBlockUncleReward := by
      calc uncles.length * (GenBlockUncleReward >>> epochIndex number)
          ≤ 5 * (GenBlockUncleReward >>> epochIndex number) := by
            exact Nat.mul_le_mul_right _ (by simpa [maxUncles] using hu)
        _ ≤ 5 * GenBlockUncleReward := Nat.mul_le_mul_left _ hT
    have hdiv : (uncles.length * (GenBlockUncleReward >>> epochIndex number)) / 6 ≤
        (5 * GenBlockUncleReward) / 6 := Nat.div_le_div_right hrc
    constructor
    · have h1 : (5 * GenBlockUncleReward) / 6 = 41666666666666666 := by decide
      simp only [GenBlockReward, GenBlockUncleReward, GenBlockEcoReward, maxBlockPayout,
        rewardsBound, supplyCap, TotalCoin] at *
      omega
    · intro hcontra; omega

/-- Witness for C1 (amended) at block 1, zero rewards, no uncles. -/
theorem claim_C1_witness :
    (accumulateRewardsGen 1 0 "0xm" []).2 ≤ rewardsBound ∧
    (supplyCap ≤ 0 → (accumulateRewardsGen 1 0 "0xm" []).2 = 0) :=
  claim_C1_supply_cap 1 0 "0xm" [] (by decide) (by decide)

/-- C10: once the cumulative rewards have reached the supply cap,
`accumulateRewardsGen` is observationally a no-op: every `AddBalance`
event in its trace carries amount zero, and the header's rewards field
is left unchanged. -/
theorem claim_C10_capped_noop (number rewards : ℕ) (coinbase : String)
    (uncles : List String) (h : supplyCap ≤ rewards) :
    (∀ e ∈ (accumulateRewardsGen number rewards coinbase uncles).1, e.2 = 0) ∧
    (accumulateRewardsGen number rewards coinbase uncles).2 = rewards := by
  unfold accumulateRewardsGen
  rw [computerRewardBase_capped number rewards h]
  constructor
  · intro e he
    simp only [List.mem_append, List.mem_map, List.mem_singleton] at he
    rcases he with (⟨u, _, rfl⟩ | rfl) | ⟨a, _, rfl⟩ <;> simp [foldl_add_const]
  · simp [foldl_add_const]

/-- Witness for C10: rewards exactly at the cap, one uncle. -/
theorem claim_C10_witness :
    (∀ e ∈ (accumulateRewardsGen 1 supplyCap "0xm" ["0xu"]).1, e.2 = 0) ∧
    (accumulateRewardsGen 1 supplyCap "0xm" ["0xu"]).2 = supplyCap :=
  claim_C10_capped_noop 1 supplyCap "0xm" ["0xu"] (by decide)

/-! ## Difficulty engine

`calcnp`, `calcnpsea`, `CalcDifficultyByLake`, `CalcDifficultyBySea`
(`consensus.go`, lines 312-523).  The package constants `params.N` and
`params.P` (the floors of the custom difficulty parameters) live in the
`params` package, which is not under `src/`; every function below takes
them as the explicit leading arguments `pN pP`. -/

/-- The common tail of `calcnp` and `calcnpsea` (`consensus.go`, lines
345-356 and 499-510): clamp `n` up to `params.N`, `p` up to `params.P`,
and cap `p` at 256. -/
def npclamp (pN pP : ℕ) (a : ℕ × ℕ) : ℕ × ℕ :=
  let n2 := if a.1 ≤ pN then pN else a.1
  let p2 := if a.2 ≤ pP then pP else a.2
  let p3 := if 256 < p2 then 256 else p2
  (n2, p3)

/-- `calcnp(timespan, n, p)` (`consensus.go`, lines 312-357): the
pre-Sea `(n, p)` adjustment.  All arithmetic is on `uint64`; every
decrement in the source is guarded by a strict comparison, so `Nat`
subtraction is exact. -/
def calcnp (pN pP timespan n p : ℕ) : ℕ × ℕ :=
  npclamp pN pP <|
    if p < 256 then
      let b :=
        if timespan < 102 then (n, p + 1)
        else if timespan < 108 then (n + 1, p)
        else if 138 < timespan then (if pP < p then (n, p - 1) else (n, p))
        else if 132 < timespan then (if pN < n then (n - 1, p) else (n, p))
        else (n, p)
      if b.2 ≤ pP ∧ pN < b.1 ∧ 360 < timespan then (b.1 - 1, b.2) else b
    else
      let b :=
        if timespan < 102 then (n + 1, p)
        else if 138 < timespan then (if pN < n then (n - 1, p) else (n, p))
        else (n, p)
      if b.1 ≤ pN ∧ pP < b.2 ∧ 360 < timespan then (b.1, b.2 - 1) else b

/-- `calcnpsea(timespan, n, p)` (`consensus.go`, lines 456-511): the
Sea-regime `(n, p)` adjustment. -/
def calcnpsea (pN pP timespan n p : ℕ) : ℕ × ℕ :=
  npclamp pN pP <|
    if p < 256 then
      let b :=
        if timespan < 5 then (n, p + 1)
        else if timespan < 7 then (n + 1, p)
        else if 900 < timespan then
          (if pP < p ∧ pN < n then (n - n / 7, p - p / 7) else (n, p))
        else if 600 < timespan then
          (if pP < p ∧ pN < n then (n - n / 10, p - p / 10) else (n, p))
        else if 16 < timespan then (if pP < p then (n, p - 1) else (n, p))
        else if 13 < timespan then (if pN < n then (n - 1, p) else (n, p))
        else (n, p)
      if b.2 ≤ pP ∧ pN < b.1 ∧ 30 < timespan then (b.1 - 1, b.2) else b
    else
      let b :=
        if timespan < 5 then (n + 1, p)
        else if 16 < timespan then (if pN < n then (n - 1, p) else (n, p))
        else (n, p)
      if b.1 ≤ pN ∧ pP < b.2 ∧ 30 < timespan then (b.1, b.2 - 1) else b

/-- `CalcDifficultyByLake(header, parent, parent12)` (`consensus.go`,
lines 358-396), returning `(N, P, Alpha, NP)`.  The headers enter only
through `header.Number`, `header.Time`, `parent12.Time`, `parent.N`,
`parent.P` and `parent.NP`, which are the arguments.  The `uint64`
subtraction `curBlockTime - parent12BlockTime` is only kept when it does
not wrap (the source resets a wrapped value to `120` immediately after),
so truncated `Nat` subtraction is exact; the `uint64` products carry an
explicit `% W`. -/
def CalcDifficultyByLake (pN pP number time parent12Time parentN parentP parentNP : ℕ) :
    ℕ × ℕ × ℕ × ℕ :=
  let NP0 := if number < 1 then 0 else parentNP
  if number ≤ 12 then
    (pN, pP, 120, NP0 + (pN * pN * pN * pP * pP * pP * pP * pP * pP) % W)
  else
    let timespan := if time < parent12Time then 120 else time - parent12Time
    let np := calcnp pN pP timespan parentN parentP
    (np.1, np.2, timespan,
     NP0 + (np.1 * np.1 * np.1 * np.2 * np.2 * np.2 * np.2 * np.2 * np.2) % W)

/-- `CalcDifficultyBySea(header, parent)` (`consensus.go`, lines
417-455), returning `(N, P, Alpha, NP)`.  The block contribution is the
`uint64` difference `n*n*n*p*p*p*p*p*p - timespan` (wrap-around),
modelled by `usub`. -/
def CalcDifficultyBySea (pN pP number time parentTime parentN parentP parentNP : ℕ) :
    ℕ × ℕ × ℕ × ℕ :=
  let ts0 := if number = 1 then 10 else time - parentTime
  let timespan := if time < parentTime then 10 else ts0
  let np := calcnpsea pN pP timespan parentN parentP
  let curNP :=
    usub ((np.1 * np.1 * np.1 * np.2 * np.2 * np.2 * np.2 * np.2 * np.2) % W) timespan
  let NP0 := if number < 1 then 0 else parentNP
  (np.1, np.2, timespan, NP0 + curNP)

/-- Modelled from the spec: the package constants `params.N` and
`params.P` (initial and floor values of the custom difficulty
parameters) are not under `src/`.  The spec's end-to-end scenario S4
(`parent.N = 2` with the Sea `timespan > 900` branch firing) forces
`params.N < 2`, and scenario S3 forces `params.P < 3`; we model the
floors as `params.N = 1`, `params.P = 1`. -/
def paramsN : ℕ := 1

/-- Modelled from the spec: see `paramsN`. -/
def paramsP : ℕ := 1

/-! ## Claims C4, C5, C6 -/

/-- The clamp tail alone forces the C5 bounds, for any adjusted pair,
as soon as the `params.P` floor is at most the 256 cap. -/
theorem npclamp_bounds (pN pP : ℕ) (h : pP ≤ 256) (a : ℕ × ℕ) :
    pN ≤ (npclamp pN pP a).1 ∧
    pP ≤ (npclamp pN pP a).2 ∧ (npclamp pN pP a).2 ≤ 256 := by
  unfold npclamp
  dsimp only
  split_ifs <;> omega

/-- C5: for `n ≥ params.N` and `params.P ≤ p ≤ 256`, `calcnp` returns
`(n', p')` with `n' ≥ params.N` and `params.P ≤ p' ≤ 256` (for any
values of the `params` floors). -/
theorem claim_C5_calcnp_bounds (pN pP timespan n p : ℕ)
    (hn : pN ≤ n) (hp1 : pP ≤ p) (hp2 : p ≤ 256) :
    pN ≤ (calcnp pN pP timespan n p).1 ∧
    pP ≤ (calcnp pN pP timespan n p).2 ∧ (calcnp pN pP timespan n p).2 ≤ 256 := by
  unfold calcnp
  exact npclamp_bounds pN pP (hp1.trans hp2) _

/-- Witness for C5 at `(pN, pP, timespan, n, p) = (1, 1, 120, 2, 3)`. -/
theorem claim_C5_witness :
    1 ≤ (calcnp 1 1 120 2 3).1 ∧
    1 ≤ (calcnp 1 1 120 2 3).2 ∧ (calcnp 1 1 120 2 3).2 ≤ 256 :=
  claim_C5_calcnp_bounds 1 1 120 2 3 (by decide) (by decide) (by decide)

/-- C6: in the Sea regime with `parent.N = 2`, `parent.P = 100` and
`timespan = 1000`, the adjustment returns `(2, 86)`
(`p ← 100 - ⌊100/7⌋`, `n ← 2 - ⌊2/7⌋`), and the block contribution to
`NP` is `2^3 * 86^6 - 1000` (shown on a header at height 2 whose time
is 1000 past its parent's, with `parent.NP = 0`). -/
theorem claim_C6_sea_scenario :
    calcnpsea paramsN paramsP 1000 2 100 = (2, 86) ∧
    CalcDifficultyBySea paramsN paramsP 2 1100 100 2 100 0 =
      (2, 86, 1000, 8 * 86 ^ 6 - 1000) := by
  decide

/-- Counterexample to C4 as stated: in the Sea regime a parent with
`(N, P, NP) = (2, 1, 999)` and a child at height 2 arriving 8 seconds
later gives `curNP = 2^3 * 1^6 - 8 = 0`, so the child's `NP` equals the
parent's `NP` instead of exceeding it. -/
theorem claim_C4_counterexample :
    ¬ 999 < (CalcDifficultyBySea paramsN paramsP 2 108 100 2 1 999).2.2.2 := by
  decide

/-- C4 (amended): along a valid chain the cumulative difficulty `NP`
never decreases — `header.NP ≥ parent.NP` under both regimes — but the
inequality is not strict: the Sea block contribution
`n³p⁶ - timespan` can be zero. -/
theorem claim_C4_NP_monotone
    (pN pP number time parentTime parent12Time parentN parentP parentNP : ℕ)
    (hnum : 1 ≤ number) :
    parentNP ≤ (CalcDifficultyBySea pN pP number time parentTime parentN parentP parentNP).2.2.2 ∧
    parentNP ≤
      (CalcDifficultyByLake pN pP number time parent12Time parentN parentP parentNP).2.2.2 := by
  constructor
  · unfold CalcDifficultyBySea
    dsimp only
    split_ifs <;> omega
  · unfold CalcDifficultyByLake
    dsimp only
    split_ifs <;> dsimp only <;> omega

/-- Witness for C4 (amended) at height 1. -/
theorem claim_C4_witness :
    5 ≤ (CalcDifficultyBySea 1 1 1 10 0 1 1 5).2.2.2 ∧
    5 ≤ (CalcDifficultyByLake 1 1 1 10 0 1 1 5).2.2.2 :=
  claim_C4_NP_monotone 1 1 1 10 0 0 1 1 5 (by decide)

/-! ## Header verification: the gas-limit checks (claim C8)

`verifyHeader` (`consensus.go`, lines 249-268) checks the gas limit in
two steps: the `2^63 - 1` cap, and — after the unrelated `gasUsed`
check — the bounded-delta/minimum check performed with Go `int64`
arithmetic.  `params.GasLimitBoundDivisor` and `params.MinGasLimit` are
not under `src/` and are explicit arguments. -/

/-- Reinterpret a `uint64` value as Go's `int64` does. -/
def toInt64 (x : ℕ) : ℤ := if x < 2 ^ 63 then (x : ℤ) else (x : ℤ) - 2 ^ 64

/-- Go `int64` subtraction with wrap-around. -/
def i64sub (a b : ℤ) : ℤ := (a - b + 2 ^ 63) % 2 ^ 64 - 2 ^ 63

/-- Go `diff *= -1` on `int64`: negation, wrapping at `MinInt64`. -/
def i64neg (v : ℤ) : ℤ := if v = -(2 ^ 63) then v else -v

/-- Go `uint64(diff)` on an `int64` value. -/
def toUInt64 (v : ℤ) : ℕ := (v % 2 ^ 64).toNat

/-- The gas-limit validation of `verifyHeader` (`consensus.go`, lines
249-268), `true` when the header's gas limit passes both gas-limit
checks (the cap check and the delta/minimum check). -/
def gasLimitOk (glbd minGL parentGasLimit headerGasLimit : ℕ) : Bool :=
  if 9223372036854775807 < headerGasLimit then false
  else
    let diff := i64sub (toInt64 parentGasLimit) (toInt64 headerGasLimit)
    let diff := if diff < 0 then i64neg diff else diff
    let limit := parentGasLimit / glbd
    if limit ≤ toUInt64 diff ∨ headerGasLimit < minGL then false else true

/-- C8: for a parent that itself passed the cap check
(`parent.gasLimit < 2^63`), the gas-limit validation accepts exactly
when `|h.gasLimit - p.gasLimit| < p.gasLimit / GasLimitBoundDivisor`,
`h.gasLimit ≥ MinGasLimit` and `h.gasLimit < 2^63`; in particular a
delta of exactly `limit - 1` passes and a delta of exactly `limit`
fails. -/
theorem claim_C8_gas_limit_check (glbd minGL parentGL headerGL : ℕ)
    (hpar : parentGL < 2 ^ 63) :
    gasLimitOk glbd minGL parentGL headerGL = true ↔
      (((headerGL : ℤ) - (parentGL : ℤ)).natAbs < parentGL / glbd ∧
       minGL ≤ headerGL ∧ headerGL < 2 ^ 63) := by
  unfold gasLimitOk toInt64 i64sub i64neg toUInt64
  by_cases h63 : 9223372036854775807 < headerGL
  · simp only [h63, if_true]
    constructor
    · intro h; cases h
    · intro h; omega
  · have hh : headerGL < 2 ^ 63 := by omega
    simp only [h63, if_false, if_pos hh, if_pos hpar]
    have harith : ((parentGL : ℤ) - (headerGL : ℤ) + 2 ^ 63) % 2 ^ 64 - 2 ^ 63 =
        (parentGL : ℤ) - (headerGL : ℤ) := by omega
    rw [harith]
    split_ifs with hneg hcond hcond <;>
      simp only [Bool.false_eq_true, false_iff, true_iff] <;> omega

/-- Witness for C8: divisor 1024, minimum 5000, parent gas limit
1024000 (so `limit = 1000`), header gas limit at delta `limit - 1`. -/
theorem claim_C8_witness :
    gasLimitOk 1024 5000 1024000 1024999 = true ↔
      (((1024999 : ℤ) - (1024000 : ℤ)).natAbs < 1024000 / 1024 ∧
       5000 ≤ 1024999 ∧ 1024999 < 2 ^ 63) :=
  claim_C8_gas_limit_check 1024 5000 1024000 1024999 (by decide)

/-! ## Batch verification dispatch (claim C7)

`VerifyHeader` (`consensus.go`, lines 70-86) and `verifyHeaderWorker`
(lines 153-167).  Only the dispatch logic matters for the claim: the
shared inner `verifyHeader` is an abstract function `verify` of the
header, the resolved parent and the seal flag, and the chain accessor
`GetHeader(hash, number)` is an abstract partial map.  Hashes are
abstract numbers; `header.Hash()` is the header's `hash` field. -/

/-- The header fields the verification dispatch reads. -/
structure BHeader where
  hash : ℕ
  parentHash : ℕ
  number : ℕ
deriving DecidableEq

/-- Outcome of verifying one header: success, the distinguished
`consensus.ErrUnknownAncestor`, or an error produced by the inner
`verifyHeader`. -/
inductive VerifyResult where
  | ok
  | unknownAncestor
  | err (code : ℕ)
deriving DecidableEq

/-- `Ethash.VerifyHeader(chain, header, seal)` (`consensus.go`, lines
70-86): full-fake short-circuit, known-header short-circuit, parent
lookup (at the `uint64` predecessor of the header's number), then the
inner verification. -/
def VerifyHeader (fullFake : Bool) (chain : ℕ → ℕ → Option BHeader)
    (verify : BHeader → BHeader → Bool → VerifyResult)
    (header : BHeader) (sealFlag : Bool) : VerifyResult :=
  if fullFake then .ok
  else if (chain header.hash header.number).isSome then .ok
  else
    match chain header.parentHash (usub header.number 1) with
    | none => .unknownAncestor
    | some parent => verify header parent sealFlag

/-- Default value backing Go's slice indexing in the worker. -/
def dfltHeader : BHeader := ⟨0, 0, 0⟩

/-- `Ethash.verifyHeaderWorker(chain, headers, seals, index)`
(`consensus.go`, lines 153-167): index 0 resolves its parent from the
chain, later indices only from the preceding batch header (when its
hash matches); the known-header check runs after the parent check. -/
def verifyHeaderWorker (chain : ℕ → ℕ → Option BHeader)
    (verify : BHeader → BHeader → Bool → VerifyResult)
    (headers : List BHeader) (seals : List Bool) (index : ℕ) : VerifyResult :=
  let hdr := headers.getD index dfltHeader
  let parent : Option BHeader :=
    if index = 0 then
      chain (headers.getD 0 dfltHeader).parentHash (usub (headers.getD 0 dfltHeader).number 1)
    else if (headers.getD (index - 1) dfltHeader).hash = hdr.parentHash then
      some (headers.getD (index - 1) dfltHeader)
    else none
  match parent with
  | none => .unknownAncestor
  | some par =>
      if (chain hdr.hash hdr.number).isSome then .ok
      else verify hdr par (seals.getD index false)

/-- The per-index result of `VerifyHeaders` (`consensus.go`, lines
91-151): in full-fake mode every index reports success without running
a worker; otherwise index `i`'s result is `verifyHeaderWorker` at `i`
(the coordinator only reorders results). -/
def batchResult (fullFake : Bool) (chain : ℕ → ℕ → Option BHeader)
    (verify : BHeader → BHeader → Bool → VerifyResult)
    (headers : List BHeader) (seals : List Bool) (index : ℕ) : VerifyResult :=
  if fullFake then .ok else verifyHeaderWorker chain verify headers seals index

/-- A two-header chain fragment for the C7 counterexample: the second
batch header's parent is on the chain but is not the first batch
header. -/
def exChain : ℕ → ℕ → Option BHeader :=
  fun h n => if h = 5 ∧ n = 1 then some ⟨5, 0, 1⟩ else none

/-- An inner verifier that accepts everything (C7 counterexample). -/
def exVerify : BHeader → BHeader → Bool → VerifyResult := fun _ _ _ => .ok

/-- Counterexample to C7 as stated: header 2 of the batch has its
parent on the chain, but the preceding batch header is not that parent,
so the batch path reports `ErrUnknownAncestor` while `VerifyHeader` on
the same header succeeds. -/
theorem claim_C7_counterexample :
    batchResult false exChain exVerify
        [⟨1, 0, 1⟩, ⟨7, 5, 2⟩] [false, false] 1 ≠
      VerifyHeader false exChain exVerify ⟨7, 5, 2⟩ false := by
  decide

/-- C7 (amended): the per-index batch result agrees with individual
verification whenever the worker's parent resolution agrees with the
chain's: at index 0 the (shared) chain lookup of the parent succeeds,
and at a later index `i` the preceding batch header is the chain's
parent of `headers[i]`.  Without that proviso the two paths differ (see
the counterexample). -/
theorem claim_C7_batch_individual_agree (fullFake : Bool)
    (chain : ℕ → ℕ → Option BHeader)
    (verify : BHeader → BHeader → Bool → VerifyResult)
    (headers : List BHeader) (seals : List Bool) (i : ℕ)
    (hi : i < headers.length)
    (hpar : if i = 0 then
        (chain (headers.getD 0 dfltHeader).parentHash
          (usub (headers.getD 0 dfltHeader).number 1)).isSome = true
      else
        (headers.getD (i - 1) dfltHeader).hash = (headers.getD i dfltHeader).parentHash ∧
        chain (headers.getD i dfltHeader).parentHash
            (usub (headers.getD i dfltHeader).number 1) =
          some (headers.getD (i - 1) dfltHeader)) :
    batchResult fullFake chain verify headers seals i =
      VerifyHeader fullFake chain verify (headers.getD i dfltHeader)
        (seals.getD i false) := by
  unfold batchResult VerifyHeader verifyHeaderWorker
  by_cases hf : fullFake
  · simp [hf]
  · simp only [hf, if_false, Bool.false_eq_true]
    by_cases h0 : i = 0
    · rw [if_pos h0] at hpar ⊢
      subst h0
      obtain ⟨p, hp⟩ := Option.isSome_iff_exists.mp hpar
      rw [hp]
    · rw [if_neg h0] at hpar ⊢
      obtain ⟨hhash, hchain⟩ := hpar
      rw [if_pos hhash, hchain]

/-- Witness for C7 (amended): a properly linked two-header batch over a
one-block chain, at index 1. -/
theorem claim_C7_witness :
    batchResult false
        (fun h n => if h = 5 ∧ n = 1 then some ⟨5, 0, 1⟩ else none) exVerify
        [⟨5, 0, 1⟩, ⟨7, 5, 2⟩] [false, false] 1 =
      VerifyHeader false
        (fun h n => if h = 5 ∧ n = 1 then some ⟨5, 0, 1⟩ else none) exVerify
        (([⟨5, 0, 1⟩, ⟨7, 5, 2⟩] : List BHeader).getD 1 dfltHeader)
        (([false, false] : List Bool).getD 1 false) :=
  claim_C7_batch_individual_agree false
    (fun h n => if h = 5 ∧ n = 1 then some ⟨5, 0, 1⟩ else none) exVerify
    [⟨5, 0, 1⟩, ⟨7, 5, 2⟩] [false, false] 1 (by decide) (by decide)

/-! ## Matrix utilities: the fuzzy dot product (claim C9)

`Min`, `Max` and `dotFProduct` from the matrix file.  The slices hold
IEEE-754 binary64 values, but these three functions only ever compare
and select (no rounding), so any linear order models them exactly on
non-NaN values; we use `ℚ`. -/

/-- `Min(x, y)` from the matrix file. -/
def Min (x y : ℚ) : ℚ := if x < y then x else y

/-- `Max(x, y)` from the matrix file. -/
def Max (x y : ℚ) : ℚ := if x < y then y else x

/-- `dotFProduct(a, b)` from the matrix file: starting from
`temp = 0`, fold `temp = Max(temp, Min(a[i], b[i]))` over the indices
of `a` (for the equal-length slices of the claim, over the element
pairs). -/
def dotFProduct (a b : List ℚ) : ℚ := (List.zipWith Min a b).foldl Max 0

/-- Folding `Max` returns an upper bound of the start value and every
element that is either the start value or an element of the list. -/
theorem foldl_Max_spec (l : List ℚ) (init : ℚ) :
    init ≤ l.foldl Max init ∧ (∀ x ∈ l, x ≤ l.foldl Max init) ∧
    (l.foldl Max init = init ∨ l.foldl Max init ∈ l) := by
  induction l generalizing init with
  | nil => simp
  | cons y ys ih =>
      obtain ⟨h1, h2, h3⟩ := ih (Max init y)
      have hinit : init ≤ Max init y := by unfold Max; split_ifs <;> simp_all [le_of_lt]
      have hy : y ≤ Max init y := by unfold Max; split_ifs <;> simp_all [le_of_lt]
      have hcase : Max init y = init ∨ Max init y = y := by
        unfold Max; split_ifs <;> simp
      refine ⟨hinit.trans h1, ?_, ?_⟩
      · intro x hx
        rcases List.mem_cons.mp hx with rfl | hx
        · exact hy.trans h1
        · exact h2 x hx
      · rcases h3 with h3 | h3
        · rcases hcase with hc | hc
          · exact Or.inl (by rw [List.foldl_cons, h3, hc])
          · exact Or.inr (by rw [List.foldl_cons, h3, hc]; exact List.mem_cons_self y ys)
        · exact Or.inr (List.mem_cons_of_mem y h3)

/-- Counterexample to C9 as stated: on the one-element slices
`a = [-1]`, `b = [-2]`, the maximum over all indices of
`min(a[i], b[i])` is `Min (-1) (-2) = -2`, but `dotFProduct` returns
`Max 0 (-2) = 0`. -/
theorem claim_C9_counterexample :
    dotFProduct [(-1 : ℚ)] [(-2 : ℚ)] ≠ Min (-1) (-2) := by
  decide

/-- C9 (amended): for equal-length slices, `dotFProduct a b` is the
maximum of `0` and all element-wise minima (so it equals the claimed
`⨆ i, min (a i) (b i)` exactly when some element-wise minimum is
non-negative): it is non-negative, bounds every element-wise minimum,
and is either `0` or one of the element-wise minima. -/
theorem claim_C9_fuzzy_dot_product (a b : List ℚ) (h : a.length = b.length) :
    0 ≤ dotFProduct a b ∧
    (∀ i, (hia : i < a.length) → (hib : i < b.length) →
      Min (a.get ⟨i, hia⟩) (b.get ⟨i, hib⟩) ≤ dotFProduct a b) ∧
    (dotFProduct a b = 0 ∨
     ∃ i, ∃ (hia : i < a.length) (hib : i < b.length),
       dotFProduct a b = Min (a.get ⟨i, hia⟩) (b.get ⟨i, hib⟩)) := by
  obtain ⟨h1, h2, h3⟩ := foldl_Max_spec (List.zipWith Min a b) 0
  have hlen : (List.zipWith Min a b).length = a.length := by
    rw [List.length_zipWith, h, min_self]
  unfold dotFProduct
  refine ⟨h1, ?_, ?_⟩
  · intro i hia hib
    have hi : i < (List.zipWith Min a b).length := by omega
    have := h2 ((List.zipWith Min a b).get ⟨i, hi⟩) (List.get_mem _ _ _)
    rwa [List.get_zipWith] at this
  · rcases h3 with h3 | h3
    · exact Or.inl h3
    · obtain ⟨⟨i, hi⟩, hget⟩ := List.mem_iff_get.mp h3
      have hia : i < a.length := by omega
      have hib : i < b.length := by omega
      refine Or.inr ⟨i, hia, hib, ?_⟩
      rw [← hget, List.get_zipWith]

/-- Witness for C9 (amended) on `a = [1, 5]`, `b = [2, 3]`. -/
theorem claim_C9_witness :
    0 ≤ dotFProduct [(1 : ℚ), 5] [(2 : ℚ), 3] ∧
    (∀ i, (hia : i < ([(1 : ℚ), 5] : List ℚ).length) →
        (hib : i < ([(2 : ℚ), 3] : List ℚ).length) →
      Min (([(1 : ℚ), 5] : List ℚ).get ⟨i, hia⟩) (([(2 : ℚ), 3] : List ℚ).get ⟨i, hib⟩) ≤
        dotFProduct [(1 : ℚ), 5] [(2 : ℚ), 3]) ∧
    (dotFProduct [(1 : ℚ), 5] [(2 : ℚ), 3] = 0 ∨
     ∃ i, ∃ (hia : i < ([(1 : ℚ), 5] : List ℚ).length)
       (hib : i < ([(2 : ℚ), 3] : List ℚ).length),
       dotFProduct [(1 : ℚ), 5] [(2 : ℚ), 3] =
         Min (([(1 : ℚ), 5] : List ℚ).get ⟨i, hia⟩) (([(2 : ℚ), 3] : List ℚ).get ⟨i, hib⟩)) :=
  claim_C9_fuzzy_dot_product [(1 : ℚ), 5] [(2 : ℚ), 3] (by decide)

end Genchain
